import Mathlib

/-
Verification of the WhatsApp relay bot (src/index.js): shallow embedding of
the reply dispatcher (`handleReply`), the inbound message relay handler, the
token fetcher (`getAccessToken`) and the QR handler (`setupQR`), together
with theorems settling the specification claims.

Modelling conventions:
- JS optional string fields become `Option String`; JS truthiness of a string
  is "defined and nonempty" (`truthy`).
- External async calls (media resolution, sends, uploads, webhook POSTs) are
  recorded in an ordered trace; awaited calls that can reject are modelled
  with `Except` where the claim is about error propagation.
- JSON object literals that the code serialises are modelled as ordered
  association lists of string key/value pairs, so the exact key set and key
  names of a POST body are part of the model.
- `JSON.parse` is a Node built-in (an external collaborator); the dispatcher
  is parameterised by it as a function `String → Option Payload` (`none`
  models a parse exception).
-/

set_option autoImplicit false

namespace BotWA

/-- JS truthiness of an optional string value: `undefined`/absent and the
empty string are falsy, every other string is truthy. -/
def truthy : Option String → Bool
  | none => false
  | some s => s ≠ ""

/-- The JS expression `a || b || ''` on (optional) strings, as written in the
source for captions (`caption || reply || ''`, `msg.caption || msg.body || ''`). -/
def jsOr (a b : Option String) : String :=
  if truthy a then a.getD "" else if truthy b then b.getD "" else ""

/-- Shape of the `imageUrl` field of a reply payload: absent, a single URL
string, or an array of URL strings (as in src/index.js lines 181-204). -/
inductive ImageUrl
  | absent
  | str (u : String)
  | arr (us : List String)
  deriving DecidableEq, Repr

/-- JS truthiness of the `imageUrl` field: `undefined` is falsy, a string is
truthy iff nonempty, an array is always truthy (even when empty). -/
def ImageUrl.truthy : ImageUrl → Bool
  | .absent => false
  | .str u => u ≠ ""
  | .arr _ => true

/-- The logical reply payload destructured by `handleReply`:
`const { from, reply, imageUrl, caption } = payload`. -/
structure Payload where
  from_ : Option String
  reply : Option String
  imageUrl : ImageUrl
  caption : Option String
  deriving DecidableEq, Repr

/-- Content of a send through the session client: a media object resolved
from a URL (`MessageMedia.fromUrl`) or plain text. -/
inductive Content
  | media (url : String)
  | text (s : String)
  deriving DecidableEq, Repr

/-- One outbound operation of the reply dispatcher, in program order:
`MessageMedia.fromUrl url (unsafeMime)` or `client.sendMessage to content opts`;
`caption = some c` models an options object carrying `caption: c`, `none`
models options without a caption (`{}` or no options argument). -/
inductive Op
  | resolve (url : String) (unsafeMime : Bool)
  | send (dest : String) (content : Content) (caption : Option String)
  deriving DecidableEq, Repr

/-- HTTP outcome of `/reply`: `ok` is `200 {success: true}`, `badRequest` is
the 400 validation error, `serverError` is the catch-all 500. -/
inductive HttpResponse
  | ok
  | badRequest
  | serverError
  deriving DecidableEq, Repr

/-- The sequential send loop of the multi-image branch
(`for (let i = 0; ...) { const options = i === 0 ? {caption: ...} : {}; ... }`):
the first send carries the caption option, all later sends carry none. -/
def multiSends (sender cap : String) : List String → List Op
  | [] => []
  | u :: rest =>
    Op.send sender (.media u) (some cap) ::
      rest.map (fun v => Op.send sender (.media v) none)

/-- The body of `handleReply` after payload resolution (src/index.js lines
175-206): validation `if (!from || (!reply && !imageUrl))` then dispatch on
the shape of `imageUrl`. Returns the HTTP outcome and the ordered trace of
outbound operations on the success path. -/
def dispatchPayload (p : Payload) : HttpResponse × List Op :=
  if !truthy p.from_ || (!truthy p.reply && !p.imageUrl.truthy) then
    (.badRequest, [])
  else
    match p.imageUrl with
    | .arr us =>
      match us with
      | [u] =>
        (.ok, [.resolve u true,
               .send (p.from_.getD "") (.media u) (some (jsOr p.caption p.reply))])
      | _ =>
        (.ok, us.map (fun u => Op.resolve u true) ++
              multiSends (p.from_.getD "") (jsOr p.caption p.reply) us)
    | .str u =>
      (.ok, [.resolve u true,
             .send (p.from_.getD "") (.media u) (some (jsOr p.caption p.reply))])
    | .absent =>
      (.ok, [.send (p.from_.getD "") (.text (p.reply.getD "")) none])

/-- The `data` field of an envelope body: a JSON-encoded string or an object. -/
inductive DataField
  | dstr (s : String)
  | dobj (p : Payload)
  deriving Repr

/-- The HTTP request body reaching `handleReply`: either a raw string or an
object with an optional `data` field and its own logical fields. -/
inductive ReqBody
  | strBody (s : String)
  | objBody (data : Option DataField) (self : Payload)
  deriving Repr

/-- The payload-resolution ternary chain of `handleReply` (src/index.js lines
169-173): `typeof body === 'string' ? JSON.parse(body) : typeof body.data ===
'string' ? JSON.parse(body.data) : body.data || body`. An object `data` field
is always truthy; an absent `data` field falls through to the body itself.
`parse` models `JSON.parse` restricted to reply payloads, `none` a parse error. -/
def resolvePayload (parse : String → Option Payload) : ReqBody → Option Payload
  | .strBody s => parse s
  | .objBody (some (.dstr s)) _ => parse s
  | .objBody (some (.dobj p)) _ => some p
  | .objBody none self => some self

/-- Full `handleReply`: resolve the payload (a parse exception is caught by
the surrounding try/catch and answered with 500), then validate and dispatch. -/
def handleReply (parse : String → Option Payload) (body : ReqBody) :
    HttpResponse × List Op :=
  match resolvePayload parse body with
  | none => (.serverError, [])
  | some p => dispatchPayload p

/-- External results consumed by one run of the inbound message handler:
the fetched access token, the downloaded media's mimetype and base64 data,
the Cloudinary `secure_url`, and `new Date().toISOString()`. -/
structure RelayEnv where
  accessToken : String
  mediaMimetype : String
  mediaData : String
  uploadUrl : String
  nowIso : String
  deriving DecidableEq, Repr

/-- The fields of an inbound message event read by the handler. -/
structure Msg where
  msgFrom : String
  msgTo : String
  body : String
  fromMe : Bool
  hasMedia : Bool
  caption : Option String
  deriving DecidableEq, Repr

/-- One outbound call of the inbound message handler, in program order.
A webhook POST records its exact JSON body as an ordered key/value list. -/
inductive RelayOp
  | fetchToken
  | downloadMedia
  | uploadMedia (dataUri : String)
  | postWebhook (body : List (String × String))
  deriving DecidableEq, Repr

/-- The JSON body POSTed to the webhook for a media message (src/index.js
lines 130-137): note the key `access_token` and
`text: msg.caption || msg.body || ''`. -/
def mediaWebhookBody (env : RelayEnv) (msg : Msg) : List (String × String) :=
  [("from", msg.msgFrom),
   ("imageUrl", env.uploadUrl),
   ("mimetype", env.mediaMimetype),
   ("text", jsOr msg.caption (some msg.body)),
   ("access_token", env.accessToken),
   ("timestamp", env.nowIso)]

/-- The JSON body POSTed to the webhook for a text-only message
(src/index.js lines 145-150). -/
def textWebhookBody (env : RelayEnv) (msg : Msg) : List (String × String) :=
  [("from", msg.msgFrom),
   ("text", msg.body),
   ("access_token", env.accessToken),
   ("timestamp", env.nowIso)]

/-- The `client.on('message')` handler (src/index.js lines 113-158) as the
ordered trace of its outbound calls on the success path: early return when
`msg.fromMe`, else token fetch, then the media or text relay branch. -/
def messageHandler (env : RelayEnv) (msg : Msg) : List RelayOp :=
  if msg.fromMe then []
  else if msg.hasMedia then
    [.fetchToken, .downloadMedia,
     .uploadMedia ("data:" ++ env.mediaMimetype ++ ";base64," ++ env.mediaData),
     .postWebhook (mediaWebhookBody env msg)]
  else
    [.fetchToken, .postWebhook (textWebhookBody env msg)]

/-- First occurrence lookup in a JSON object modelled as a key/value list. -/
def lookupField (data : List (String × String)) (k : String) : Option String :=
  (data.find? (fun kv => kv.1 = k)).map (fun kv => kv.2)

/-- `JSON.stringify` of a flat string-valued object, used in the failure
message of `getAccessToken`. -/
def stringifyObj (data : List (String × String)) : String :=
  "\x7b" ++
    String.intercalate ","
      (data.map (fun kv => "\"" ++ kv.1 ++ "\":\"" ++ kv.2 ++ "\"")) ++
  "\x7d"

/-- `getAccessToken` (src/index.js lines 58-66) applied to the token
endpoint's parsed response body. The code throws when `!data.access_token`
(a truthiness test, so an empty-string token also throws) with the message
"Gagal ambil access token: " followed by `data.error_description ||
JSON.stringify(data)`; otherwise it returns `data.access_token`. -/
def getAccessToken (data : List (String × String)) : Except String String :=
  if truthy (lookupField data "access_token") then
    .ok ((lookupField data "access_token").getD "")
  else
    .error ("Gagal ambil access token: " ++
      (if truthy (lookupField data "error_description") then
        (lookupField data "error_description").getD ""
      else stringifyObj data))

/-- The `client.on('qr')` handler body of `setupQR` (src/index.js lines
84-93): await QR rendering (`qrcode.toDataURL`), then await the Cloudinary
upload of the rendered data URL, with no try/catch — a rejection of either
awaited step short-circuits and propagates out of the handler. -/
def qrHandler (render : Except String String)
    (upload : String → Except String String) : Except String String :=
  match render with
  | .error e => .error e
  | .ok url =>
    match upload url with
    | .error e => .error e
    | .ok result => .ok result

/-- First send operation of a trace, skipping media resolutions. -/
def firstSend : List Op → Option Op
  | [] => none
  | Op.send d c o :: _ => some (Op.send d c o)
  | _ :: rest => firstSend rest

/-- Caption formula as the specification words it: JS `caption ?? reply ?? ''`
(nullish coalescing, so a present-but-empty caption is kept). Spec-side
definition, to be compared with the code's `caption || reply || ''` (`jsOr`). -/
def nullishCaption (c r : Option String) : String := c.getD (r.getD "")

/-- Media webhook body as the specification claims it: key `accessToken` and
`text` equal to the caption whenever that field is present (even empty), else
the body. Spec-side definition, to be compared with `mediaWebhookBody`. -/
def specMediaBody (env : RelayEnv) (msg : Msg) : List (String × String) :=
  [("from", msg.msgFrom),
   ("imageUrl", env.uploadUrl),
   ("mimetype", env.mediaMimetype),
   ("text", match msg.caption with | some c => c | none => msg.body),
   ("accessToken", env.accessToken),
   ("timestamp", env.nowIso)]

/-- A concrete resolved payload used as a fixture. -/
def demoPayload : Payload := ⟨some "x", some "hi", .absent, none⟩

/-- A concrete payload with no fields, used as an envelope carrier fixture. -/
def emptyPayload : Payload := ⟨none, none, .absent, none⟩

/-- A concrete parse oracle mapping every string to `demoPayload`. -/
def parseDemo : String → Option Payload := fun _ => some demoPayload

/-- Concrete external results for message-handler fixtures. -/
def cexEnv : RelayEnv := ⟨"tok", "image/jpeg", "QUJD", "https://h/i.jpg", "T0"⟩

/-- Concrete inbound media message fixture. -/
def cexMsg : Msg := ⟨"628", "me", "halo", false, true, none⟩

/-- Concrete inbound text-only message fixture. -/
def cexMsgText : Msg := ⟨"628", "me", "halo", false, false, none⟩

/-- An upload step that always succeeds, as a fixture. -/
def okUpload : String → Except String String :=
  fun _ => Except.ok "https://res.example/qr.png"

/-- An upload step that always fails, as a fixture. -/
def failUpload : String → Except String String :=
  fun _ => Except.error "upload failed"

/-- Claim C1: for a reply payload with a present target and an imageUrl array
of two or more URLs, the dispatcher first resolves every URL in array order
and then issues the sends sequentially in array order, each targeting `from`;
only the first send carries the caption option and every subsequent send
carries no caption. -/
theorem multiImage_sequential_sends (p : Payload) (u v : String) (rest : List String)
    (hfrom : truthy p.from_ = true) (himg : p.imageUrl = .arr (u :: v :: rest)) :
    dispatchPayload p =
      (.ok, ((u :: v :: rest).map (fun w => Op.resolve w true)) ++
        (Op.send (p.from_.getD "") (.media u) (some (jsOr p.caption p.reply)) ::
          (v :: rest).map (fun w => Op.send (p.from_.getD "") (.media w) none))) := by
  simp [dispatchPayload, himg, hfrom, ImageUrl.truthy, multiSends]

/-- Witness for C1: three URLs, caption on the first send only, order a, b, c. -/
theorem multiImage_sequential_sends_witness :
    dispatchPayload ⟨some "x", none, .arr ["a.png", "b.png", "c.png"], some "cap"⟩ =
      (.ok, [.resolve "a.png" true, .resolve "b.png" true, .resolve "c.png" true,
             .send "x" (.media "a.png") (some "cap"),
             .send "x" (.media "b.png") none,
             .send "x" (.media "c.png") none]) := by
  have h := multiImage_sequential_sends
    ⟨some "x", none, .arr ["a.png", "b.png", "c.png"], some "cap"⟩
    "a.png" "b.png" ["c.png"] (by decide) rfl
  simpa [jsOr, truthy] using h

/-- Claim C2: a body arriving as a raw JSON string, as an envelope whose
`data` is a JSON-encoded string, as an envelope whose `data` is an object, or
as a bare object resolves to the same payload, so `handleReply` behaves
identically on all four shapes. -/
theorem handleReply_four_body_shapes (parse : String → Option Payload) (p q : Payload)
    (s t : String) (hs : parse s = some p) (ht : parse t = some p) :
    resolvePayload parse (.strBody s) = some p ∧
    resolvePayload parse (.objBody (some (.dstr t)) q) = some p ∧
    resolvePayload parse (.objBody (some (.dobj p)) q) = some p ∧
    resolvePayload parse (.objBody none p) = some p ∧
    handleReply parse (.strBody s) = dispatchPayload p ∧
    handleReply parse (.objBody (some (.dstr t)) q) = dispatchPayload p ∧
    handleReply parse (.objBody (some (.dobj p)) q) = dispatchPayload p ∧
    handleReply parse (.objBody none p) = dispatchPayload p := by
  simp [resolvePayload, handleReply, hs, ht]

/-- Witness for C2: the string-encoded envelope and the bare object for
from = "x", reply = "hi" resolve to the same request and the same behaviour. -/
theorem handleReply_four_body_shapes_witness :
    resolvePayload parseDemo (.strBody "enc") = some demoPayload ∧
    resolvePayload parseDemo (.objBody (some (.dstr "enc")) emptyPayload) = some demoPayload ∧
    resolvePayload parseDemo (.objBody (some (.dobj demoPayload)) emptyPayload) = some demoPayload ∧
    resolvePayload parseDemo (.objBody none demoPayload) = some demoPayload ∧
    handleReply parseDemo (.strBody "enc") = dispatchPayload demoPayload ∧
    handleReply parseDemo (.objBody (some (.dstr "enc")) emptyPayload) = dispatchPayload demoPayload ∧
    handleReply parseDemo (.objBody (some (.dobj demoPayload)) emptyPayload) = dispatchPayload demoPayload ∧
    handleReply parseDemo (.objBody none demoPayload) = dispatchPayload demoPayload :=
  handleReply_four_body_shapes parseDemo demoPayload emptyPayload "enc" "enc" rfl rfl

/-- Claim C3: a payload lacking `from`, or lacking both `reply` and
`imageUrl`, is answered with HTTP 400 and produces no outbound operation. -/
theorem missing_fields_rejected (p : Payload)
    (h : p.from_ = none ∨ (p.reply = none ∧ p.imageUrl = .absent)) :
    dispatchPayload p = (.badRequest, []) := by
  rcases h with h | ⟨hr, hi⟩
  · simp [dispatchPayload, h, truthy]
  · simp [dispatchPayload, hr, hi, truthy, ImageUrl.truthy]

/-- Witness for C3: `from` present but neither `reply` nor `imageUrl`. -/
theorem missing_fields_rejected_witness :
    dispatchPayload ⟨some "x", none, .absent, some "c"⟩ = (.badRequest, []) :=
  missing_fields_rejected ⟨some "x", none, .absent, some "c"⟩ (Or.inr ⟨rfl, rfl⟩)

/-- Claim C7: a self-originated message (`fromMe`) causes the message handler
to perform zero outbound calls. -/
theorem fromMe_not_relayed (env : RelayEnv) (msg : Msg) (h : msg.fromMe = true) :
    messageHandler env msg = [] := by
  simp [messageHandler, h]

/-- Witness for C7. -/
theorem fromMe_not_relayed_witness :
    messageHandler cexEnv ⟨"628", "me", "halo", true, false, none⟩ = [] :=
  fromMe_not_relayed cexEnv ⟨"628", "me", "halo", true, false, none⟩ rfl

/-- Claim C10: with `from` present and `imageUrl = []`, validation passes
(an empty array is truthy), the multi-image branch loops zero times, and the
response is 200 with no outbound operation. -/
theorem empty_image_array_ok (p : Payload) (hfrom : truthy p.from_ = true)
    (himg : p.imageUrl = .arr []) :
    dispatchPayload p = (.ok, []) := by
  simp [dispatchPayload, himg, hfrom, ImageUrl.truthy, multiSends]

/-- Witness for C10: `from` present, no `reply`, empty image array. -/
theorem empty_image_array_ok_witness :
    dispatchPayload ⟨some "x", none, .arr [], none⟩ = (.ok, []) :=
  empty_image_array_ok ⟨some "x", none, .arr [], none⟩ (by decide) rfl

/-- Counterexample to claim C4: with caption = "" (present) and reply = "hi"
the code attaches caption "hi", while the claimed `caption ?? reply ?? ''`
yields "". -/
theorem caption_formula_cex :
    dispatchPayload ⟨some "x", some "hi", .str "a.png", some ""⟩ =
      (.ok, [.resolve "a.png" true, .send "x" (.media "a.png") (some "hi")]) ∧
    nullishCaption (some "") (some "hi") = "" ∧
    ("hi" : String) ≠ ("" : String) := by
  refine ⟨rfl, rfl, by decide⟩

/-- Skipping leading media resolutions does not change the first send. -/
theorem firstSend_append_resolves (us : List String) (b : Bool) (l : List Op) :
    firstSend (us.map (fun u => Op.resolve u b) ++ l) = firstSend l := by
  induction us with
  | nil => rfl
  | cons u rest ih => simpa [firstSend] using ih

/-- Claim C4, amended: for every request dispatched with an image (single URL
string, singleton array, or first element of a multi-image batch), the
caption attached to the captioned send equals `caption || reply || ''`
(JS truthiness): the caption field when present and nonempty, else the reply
field when present and nonempty, else the empty string. -/
theorem caption_formula (p : Payload) (u : String) (us : List String)
    (hfrom : truthy p.from_ = true)
    (hval : truthy p.reply = true ∨ p.imageUrl.truthy = true)
    (himg : p.imageUrl = .str u ∨ p.imageUrl = .arr (u :: us)) :
    firstSend (dispatchPayload p).2 =
      some (.send (p.from_.getD "") (.media u) (some (jsOr p.caption p.reply))) := by
  rcases himg with h | h
  · rcases hval with hv | hv
    · simp [dispatchPayload, h, hfrom, hv, firstSend]
    · rw [h] at hv
      simp [dispatchPayload, h, hfrom, hv, firstSend]
  · cases us with
    | nil => simp [dispatchPayload, h, hfrom, ImageUrl.truthy, firstSend]
    | cons v vs =>
      simp only [dispatchPayload, h, hfrom, ImageUrl.truthy, Bool.not_true,
        Bool.false_or, Bool.and_false, if_neg]
      simpa [multiSends, firstSend] using
        firstSend_append_resolves (u :: v :: vs) true
          (multiSends (p.from_.getD "") (jsOr p.caption p.reply) (u :: v :: vs))

/-- Witness for amended C4: single URL string, no caption, reply = "r". -/
theorem caption_formula_witness :
    firstSend (dispatchPayload ⟨some "x", some "r", .str "a.png", none⟩).2 =
      some (.send "x" (.media "a.png") (some "r")) := by
  have h := caption_formula ⟨some "x", some "r", .str "a.png", none⟩ "a.png" []
    (by decide) (Or.inl (by decide)) (Or.inl rfl)
  simpa [jsOr, truthy] using h

/-- Counterexample to claim C5: at a concrete media message the handler's
webhook body differs from the body the claim asserts — the code writes the
token under the key `access_token`, not `accessToken`. -/
theorem webhook_body_cex :
    messageHandler cexEnv cexMsg =
      [.fetchToken, .downloadMedia, .uploadMedia "data:image/jpeg;base64,QUJD",
       .postWebhook (mediaWebhookBody cexEnv cexMsg)] ∧
    mediaWebhookBody cexEnv cexMsg ≠ specMediaBody cexEnv cexMsg := by
  refine ⟨rfl, by decide⟩

/-- Claim C5, amended: a relayed media message POSTs exactly
`[from, imageUrl, mimetype, text, access_token, timestamp]` with
`text = caption || body || ''`; a relayed text-only message POSTs exactly
`[from, text, access_token, timestamp]` with `text` the message body. -/
theorem webhook_body_shape (env : RelayEnv) (msg : Msg) (h : msg.fromMe = false) :
    (msg.hasMedia = true →
      messageHandler env msg =
        [.fetchToken, .downloadMedia,
         .uploadMedia ("data:" ++ env.mediaMimetype ++ ";base64," ++ env.mediaData),
         .postWebhook [("from", msg.msgFrom), ("imageUrl", env.uploadUrl),
           ("mimetype", env.mediaMimetype),
           ("text", jsOr msg.caption (some msg.body)),
           ("access_token", env.accessToken), ("timestamp", env.nowIso)]]) ∧
    (msg.hasMedia = false →
      messageHandler env msg =
        [.fetchToken, .postWebhook [("from", msg.msgFrom), ("text", msg.body),
          ("access_token", env.accessToken), ("timestamp", env.nowIso)]]) := by
  constructor <;> intro hm <;>
    simp [messageHandler, mediaWebhookBody, textWebhookBody, h, hm]

/-- Witness for amended C5: a concrete text-only message. -/
theorem webhook_body_shape_witness :
    messageHandler cexEnv cexMsgText =
      [.fetchToken, .postWebhook [("from", "628"), ("text", "halo"),
        ("access_token", "tok"), ("timestamp", "T0")]] := by
  have h := (webhook_body_shape cexEnv cexMsgText rfl).2 rfl
  simpa [cexEnv, cexMsgText] using h

/-- Counterexample to claim C6: for the singleton array containing the empty
string the dispatcher resolves and sends, while for the same payload with the
plain string it rejects with 400 — the two shapes are not treated
identically. -/
theorem singleton_array_cex :
    dispatchPayload ⟨some "x", none, .arr [""], none⟩ =
      (.ok, [.resolve "" true, .send "x" (.media "") (some "")]) ∧
    dispatchPayload ⟨some "x", none, .str "", none⟩ = (.badRequest, []) := by
  refine ⟨rfl, rfl⟩

/-- Claim C6, amended: for a singleton array holding a nonempty URL the
dispatcher behaves exactly as on the plain string: same response, same trace;
and when `from` is present that trace is one media resolution with unsafe
MIME followed by one send with caption `caption || reply || ''`. -/
theorem singleton_array_eq_string (p : Payload) (u : String) (hu : u ≠ "")
    (himg : p.imageUrl = .arr [u]) :
    dispatchPayload p = dispatchPayload ⟨p.from_, p.reply, .str u, p.caption⟩ ∧
    (truthy p.from_ = true →
      dispatchPayload p =
        (.ok, [.resolve u true,
               .send (p.from_.getD "") (.media u) (some (jsOr p.caption p.reply))])) := by
  by_cases hf : truthy p.from_ = true
  · constructor
    · simp [dispatchPayload, himg, hf, ImageUrl.truthy, hu]
    · intro _
      simp [dispatchPayload, himg, hf, ImageUrl.truthy]
  · have hf' : truthy p.from_ = false := by
      cases hb : truthy p.from_
      · rfl
      · exact absurd hb hf
    constructor
    · simp [dispatchPayload, himg, hf', ImageUrl.truthy]
    · intro hcontra
      exact absurd hcontra hf

/-- Witness for amended C6: singleton array ["a.png"] with caption "c". -/
theorem singleton_array_eq_string_witness :
    dispatchPayload ⟨some "x", none, .arr ["a.png"], some "c"⟩ =
      dispatchPayload ⟨some "x", none, .str "a.png", some "c"⟩ ∧
    dispatchPayload ⟨some "x", none, .arr ["a.png"], some "c"⟩ =
      (.ok, [.resolve "a.png" true, .send "x" (.media "a.png") (some "c")]) := by
  have h := singleton_array_eq_string ⟨some "x", none, .arr ["a.png"], some "c"⟩
    "a.png" (by decide) rfl
  exact ⟨h.1, by simpa [jsOr, truthy] using h.2 (by decide)⟩

/-- Counterexample to claim C8: a response body that does contain an
`access_token` field (with value "") still makes `getAccessToken` fail,
because the code tests truthiness, not presence. -/
theorem getAccessToken_cex :
    lookupField [("access_token", "")] "access_token" = some "" ∧
    getAccessToken [("access_token", "")] =
      .error ("Gagal ambil access token: " ++ stringifyObj [("access_token", "")]) := by
  refine ⟨rfl, rfl⟩

/-- Claim C8, amended: `getAccessToken` fails exactly when the response's
`access_token` field is absent or empty (falsy); on failure the message
contains the `error_description` value whenever that field is present; on
success it returns the `access_token` value. -/
theorem getAccessToken_spec (data : List (String × String)) :
    (∀ t, lookupField data "access_token" = some t → t ≠ "" →
      getAccessToken data = .ok t) ∧
    ((lookupField data "access_token" = none ∨
        lookupField data "access_token" = some "") →
      ∃ e, getAccessToken data = .error e ∧
        ∀ ed, lookupField data "error_description" = some ed →
          ∃ pre post, e = pre ++ ed ++ post) := by
  constructor
  · intro t ht hne
    simp [getAccessToken, ht, truthy, hne]
  · intro h
    have hfalse : truthy (lookupField data "access_token") = false := by
      rcases h with h | h <;> simp [h, truthy]
    refine ⟨"Gagal ambil access token: " ++
      (if truthy (lookupField data "error_description") then
        (lookupField data "error_description").getD ""
      else stringifyObj data), ?_, ?_⟩
    · simp [getAccessToken, hfalse]
    · intro ed hed
      by_cases hde : ed = ""
      · refine ⟨"", "Gagal ambil access token: " ++
          (if truthy (lookupField data "error_description") then
            (lookupField data "error_description").getD ""
          else stringifyObj data), ?_⟩
        subst hde
        simp
      · have htr : truthy (lookupField data "error_description") = true := by
          simp [hed, truthy, hde]
        refine ⟨"Gagal ambil access token: ", "", ?_⟩
        simp [htr, hed, truthy, hde]

/-- Witness for amended C8: a response carrying a nonempty token succeeds
with that token; one carrying only an error description fails with a message
containing it. -/
theorem getAccessToken_spec_witness :
    getAccessToken [("access_token", "tok")] = .ok "tok" ∧
    ∃ e, getAccessToken [("error_description", "bad grant")] = .error e ∧
      ∃ pre post, e = pre ++ "bad grant" ++ post := by
  constructor
  · exact (getAccessToken_spec [("access_token", "tok")]).1 "tok" rfl (by decide)
  · have h := ((getAccessToken_spec [("error_description", "bad grant")]).2
      (Or.inl rfl))
    obtain ⟨e, he, hinc⟩ := h
    exact ⟨e, he, hinc "bad grant" rfl⟩

/-- Counterexample to claim C9: a failure of the rendering step, and likewise
of the hosting step, makes the qr handler itself fail — nothing inside the
handler catches it. -/
theorem qr_failure_cex :
    qrHandler (.error "render failed") okUpload = .error "render failed" ∧
    qrHandler (.ok "data:image/png;base64,QUJD") failUpload =
      .error "upload failed" := by
  refine ⟨rfl, rfl⟩

/-- Claim C9, amended: the qr handler contains no catch — it succeeds exactly
when both the rendering step and the hosting step succeed, and a failure of
either step propagates out of the handler unchanged. -/
theorem qrHandler_propagates (render : Except String String)
    (upload : String → Except String String) :
    ((∃ v, qrHandler render upload = .ok v) ↔
      ∃ u, render = .ok u ∧ ∃ v, upload u = .ok v) ∧
    (∀ e, render = .error e → qrHandler render upload = .error e) ∧
    (∀ u e, render = .ok u → upload u = .error e →
      qrHandler render upload = .error e) := by
  refine ⟨?_, ?_, ?_⟩
  · cases render with
    | error e => simp [qrHandler]
    | ok u =>
      cases h : upload u with
      | error e => simp [qrHandler, h]
      | ok v => simp [qrHandler, h]
  · intro e he
    subst he
    rfl
  · intro u e hu hup
    subst hu
    simp [qrHandler, hup]

/-- Witness for amended C9: with both steps succeeding the handler succeeds,
and the error cases are realised on the fixtures. -/
theorem qrHandler_propagates_witness :
    (∃ v, qrHandler (.ok "data:image/png;base64,QUJD") okUpload = .ok v) ∧
    qrHandler (.error "render failed") okUpload = .error "render failed" := by
  constructor
  · exact (qrHandler_propagates (.ok "data:image/png;base64,QUJD") okUpload).1.mpr
      ⟨"data:image/png;base64,QUJD", rfl, "https://res.example/qr.png", rfl⟩
  · exact (qrHandler_propagates (.error "render failed") okUpload).2.1
      "render failed" rfl

end BotWA
